import Mathlib

/-!
Verification of the `check` Go package: an exception-style error-propagation
layer built on panic/recover. Panicking computations are embedded as
`Except Payload α`: `.ok` models normal return, `.error p` models an unwind
in progress carrying payload `p`. Go `error` values that may be nil are
modelled as `Option GoErr`; the check.Error wrapper type is the
`Payload.checkErr` constructor, and every other panic payload is
`Payload.foreign`.
-/

namespace Check

/-- A stack frame, identified by the name of the function it belongs to. -/
abbrev Frame := String

/-- Go non-nil error values relevant to the package: errors made by
`errors.New` / opaque user causes (`base`), errors made by `fmt.Errorf`
(`fmtErr`), and the stack-capturing decorator of the external go-errors
package (`stackWrapped`). A nilable `error` variable is an `Option GoErr`. -/
inductive GoErr where
  | base : String → GoErr
  | fmtErr : String → GoErr
  | stackWrapped : GoErr → List Frame → GoErr
deriving DecidableEq

/-- `ErrNilError` from error.go: `errors.New("called Fail(nil)")`, the
sentinel panicked by `Fail(nil)`. It is a plain error value, not a
check.Error. -/
def ErrNilError : GoErr := GoErr.base "called Fail(nil)"

/-- Arbitrary non-error Go values that can be panic payloads. -/
inductive GoVal where
  | vint : Int → GoVal
  | vstr : String → GoVal
  | verr : GoErr → GoVal
deriving DecidableEq

/-- A panic payload (`any` as seen by `recover`): either a `check.Error`
wrapping a cause (`checkErr e` models `Error{e}` with `Unwrap` returning
`e`), or any other value (`foreign`). -/
inductive Payload where
  | checkErr : GoErr → Payload
  | foreign : GoVal → Payload
deriving DecidableEq

/-- `math.MinInt` on a 64-bit platform. -/
def mathMinInt : Int := -(2 ^ 63)

/-- A transform step: `func(e error) error` where the result may be nil. -/
abbrev Transform := GoErr → Option GoErr

/-- must.go `Must`: panics `Error{err}` if `err` is non-nil. -/
def Must (err : Option GoErr) : Except Payload Unit :=
  match err with
  | some e => .error (.checkErr e)
  | none => .ok ()

/-- must.go `Must1`: returns `t` if `err` is nil, else panics `Error{err}`. -/
def Must1 {α : Type} (t : α) (err : Option GoErr) : Except Payload α :=
  match err with
  | some e => .error (.checkErr e)
  | none => .ok t

/-- must.go `Must2`: calls `Must err` then returns `(t1, t2)`. -/
def Must2 {α β : Type} (t1 : α) (t2 : β) (err : Option GoErr) :
    Except Payload (α × β) := do
  Must err
  pure (t1, t2)

/-- must.go `Must3`: calls `Must err` then returns `(t1, t2, t3)`. -/
def Must3 {α β γ : Type} (t1 : α) (t2 : β) (t3 : γ) (err : Option GoErr) :
    Except Payload (α × β × γ) := do
  Must err
  pure (t1, t2, t3)

/-- must.go `Must4`: calls `Must err` then returns `(t1, t2, t3, t4)`. -/
def Must4 {α β γ δ : Type} (t1 : α) (t2 : β) (t3 : γ) (t4 : δ)
    (err : Option GoErr) : Except Payload (α × β × γ × δ) := do
  Must err
  pure (t1, t2, t3, t4)

/-- check.go `Fail`: panics `ErrNilError` (a plain error, not a
check.Error) when `err` is nil, else panics `Error{err}`. -/
def Fail (err : Option GoErr) : Except Payload Unit :=
  match err with
  | none => .error (.foreign (.verr ErrNilError))
  | some e => .error (.checkErr e)

/-- check.go `Pass`: re-panics `r` when it is a `check.Error`, otherwise
returns `r` unchanged (including when `r` is nil). -/
def Pass (r : Option Payload) : Except Payload (Option Payload) :=
  match r with
  | some (.checkErr e) => .error (.checkErr e)
  | _ => .ok r

/-- The transform loop inside handle.go `handle`:
`for _, transform := range transforms ...`, stopping with nil (`none`,
recovery fully suppressed) as soon as any transform returns nil. -/
def transformChain : List Transform → GoErr → Option GoErr
  | [], err => some err
  | t :: ts, err =>
    match t err with
    | none => none
    | some err2 => transformChain ts err2

/-- Modelled from the spec: `errors.Wrap` of the external
github.com/go-errors/errors package (not part of src/): it decorates `err`
with the call stack captured at the point of the call, dropping the first
`skip` frames, while `Unwrap` keeps access to `err` underneath. `stack` is
the raw call stack at capture time, innermost frame first. -/
def errorsWrap (err : GoErr) (skip : Int) (stack : List Frame) : GoErr :=
  .stackWrapped err (stack.drop skip.toNat)

/-- Outcome of a deferred recovery boundary: `normal w` is a normal return
from the deferred call, with `w = some err` exactly when `*e = err` was
executed; `repanic p` is a call to `panic(p)` from inside the boundary. -/
inductive HandleResult where
  | normal : Option GoErr → HandleResult
  | repanic : Payload → HandleResult
deriving DecidableEq

/-- handle.go `handle`: `r` is the result of `recover()` (`none` models
nil, i.e. no unwind in progress), `slotSupplied` models `e != nil` for the
output slot pointer, and `stack` is the raw call stack at interception
time as seen by `errorsWrap`. -/
def handle (r : Option Payload) (skip : Int) (slotSupplied : Bool)
    (transforms : List Transform) (stack : List Frame) : HandleResult :=
  match r with
  | none => .normal none
  | some (.checkErr wrapped) =>
    match transformChain transforms wrapped with
    | none => .normal none
    | some err =>
      if slotSupplied then
        if skip ≠ mathMinInt then
          .normal (some (errorsWrap err (4 + skip) stack))
        else
          .normal (some err)
      else
        .repanic (.checkErr err)
  | some (.foreign v) => .repanic (.foreign v)

/-- handle.go `Handle`: `handle(recover(), math.MinInt, e, transforms...)`. -/
def Handle (r : Option Payload) (slotSupplied : Bool)
    (transforms : List Transform) : HandleResult :=
  handle r mathMinInt slotSupplied transforms []

/-- handle.go `Wrap`: `handle(recover(), skip, e, transforms...)`. -/
def Wrap (r : Option Payload) (skip : Int) (slotSupplied : Bool)
    (transforms : List Transform) (stack : List Frame) : HandleResult :=
  handle r skip slotSupplied transforms stack

/-- A function with named error return `e` (initially nil) and a deferred
`handle` boundary over `&e`: runs `body`, then the deferred boundary with
the recover result; returns the final value of `e` on normal return, or
the payload the boundary re-panicked. When the body panics, `e` still
holds its initial nil value at defer time. -/
def runBoundary (skip : Int) (transforms : List Transform)
    (stack : List Frame) (body : Except Payload (Option GoErr)) :
    Except Payload (Option GoErr) :=
  match body with
  | .ok e0 =>
    match handle none skip true transforms stack with
    | .normal none => .ok e0
    | .normal (some w) => .ok (some w)
    | .repanic p => .error p
  | .error p =>
    match handle (some p) skip true transforms stack with
    | .normal none => .ok none
    | .normal (some w) => .ok (some w)
    | .repanic q => .error q

/-- Catch (arity 0): `defer Handle(&e, transforms...); work(); return`.
`work` is the embedded unit of work; the result carries the named error
return `e`, or the payload re-panicked by the boundary. -/
def Catch (work : Except Payload Unit) (transforms : List Transform) :
    Except Payload (Option GoErr) :=
  match work with
  | .ok _ =>
    match Handle none true transforms with
    | .normal none => .ok none
    | .normal (some w) => .ok (some w)
    | .repanic p => .error p
  | .error p =>
    match Handle (some p) true transforms with
    | .normal none => .ok none
    | .normal (some w) => .ok (some w)
    | .repanic q => .error q

/-- Catch1: like Catch but the work returns one value; when the work
panics, `t` keeps its zero value, modelled by `Inhabited.default`. -/
def Catch1 {α : Type} [Inhabited α] (work : Except Payload α)
    (transforms : List Transform) : Except Payload (α × Option GoErr) :=
  match work with
  | .ok t =>
    match Handle none true transforms with
    | .normal none => .ok (t, none)
    | .normal (some w) => .ok (t, some w)
    | .repanic p => .error p
  | .error p =>
    match Handle (some p) true transforms with
    | .normal none => .ok (default, none)
    | .normal (some w) => .ok (default, some w)
    | .repanic q => .error q

/-- Catch2: like Catch1 for work returning two values. -/
def Catch2 {α β : Type} [Inhabited α] [Inhabited β]
    (work : Except Payload (α × β)) (transforms : List Transform) :
    Except Payload (α × β × Option GoErr) :=
  match work with
  | .ok (t1, t2) =>
    match Handle none true transforms with
    | .normal none => .ok (t1, t2, none)
    | .normal (some w) => .ok (t1, t2, some w)
    | .repanic p => .error p
  | .error p =>
    match Handle (some p) true transforms with
    | .normal none => .ok (default, default, none)
    | .normal (some w) => .ok (default, default, some w)
    | .repanic q => .error q

/-- Catch3: like Catch1 for work returning three values. -/
def Catch3 {α β γ : Type} [Inhabited α] [Inhabited β] [Inhabited γ]
    (work : Except Payload (α × β × γ)) (transforms : List Transform) :
    Except Payload (α × β × γ × Option GoErr) :=
  match work with
  | .ok (t1, t2, t3) =>
    match Handle none true transforms with
    | .normal none => .ok (t1, t2, t3, none)
    | .normal (some w) => .ok (t1, t2, t3, some w)
    | .repanic p => .error p
  | .error p =>
    match Handle (some p) true transforms with
    | .normal none => .ok (default, default, default, none)
    | .normal (some w) => .ok (default, default, default, some w)
    | .repanic q => .error q

/-- Catch4: like Catch1 for work returning four values. -/
def Catch4 {α β γ δ : Type} [Inhabited α] [Inhabited β] [Inhabited γ]
    [Inhabited δ] (work : Except Payload (α × β × γ × δ))
    (transforms : List Transform) :
    Except Payload (α × β × γ × δ × Option GoErr) :=
  match work with
  | .ok (t1, t2, t3, t4) =>
    match Handle none true transforms with
    | .normal none => .ok (t1, t2, t3, t4, none)
    | .normal (some w) => .ok (t1, t2, t3, t4, some w)
    | .repanic p => .error p
  | .error p =>
    match Handle (some p) true transforms with
    | .normal none => .ok (default, default, default, default, none)
    | .normal (some w) => .ok (default, default, default, default, some w)
    | .repanic q => .error q

/-- `Unwrap` on the go-errors stack decorator: `none` on errors that do
not wrap another error. -/
def unwrapErr : GoErr → Option GoErr
  | .stackWrapped e _ => some e
  | _ => none

/-- The stack trace attached to a go-errors decorated error, if any. -/
def stackTrace : GoErr → Option (List Frame)
  | .stackWrapped _ fs => some fs
  | _ => none

/-- Modelled from the spec: the raw call stack observed by the external
go-errors stack capture when `handle` intercepts a Failure Payload (not
part of src/). Per the spec, the fixed skip of 4 in `handle` covers the
capture and boundary internals together with the raising function, so
that the frames after the first four begin with the immediate caller of
the function that raised. `callers` therefore starts with that immediate
caller. -/
def interceptionStack (raiser : Frame) (callers : List Frame) :
    List Frame :=
  "goerrors.Wrap" :: "check.handle" :: "check.Wrap" :: raiser :: callers

/-- C1: an unwind payload that is not a Failure Payload (not a
check.Error), observed by an armed recovery boundary (`handle`, shared by
Handle and Wrap) at scope exit, is re-raised as exactly the same payload,
no write to the output slot is performed, and it is never converted into
a returned error, whatever the skip, slot, transforms and stack. -/
theorem foreign_unwind_reraised_identically (r : Payload)
    (h : ∀ e, r ≠ Payload.checkErr e) (skip : Int) (slot : Bool)
    (ts : List Transform) (stack : List Frame) :
    handle (some r) skip slot ts stack = .repanic r := by
  cases r with
  | checkErr e => exact absurd rfl (h e)
  | foreign v => rfl

/-- Witness for C1 at the concrete foreign payload `7`. -/
theorem foreign_unwind_reraised_identically_witness :
    handle (some (.foreign (.vint 7))) 0 true [] [] =
      .repanic (.foreign (.vint 7)) :=
  foreign_unwind_reraised_identically (.foreign (.vint 7))
    (fun _ h => Payload.noConfusion h) 0 true [] []

/-- C2: for every arity 0..4, the Must family returns the success values
unchanged when the cause is nil, and raises a Failure Payload (a
check.Error) wrapping exactly the cause `c`, discarding the success
values, when the cause is non-nil. -/
theorem must_family_correct (α β γ δ : Type) (v1 : α) (v2 : β) (v3 : γ)
    (v4 : δ) (c : GoErr) :
    Must none = .ok () ∧
    Must1 v1 none = .ok v1 ∧
    Must2 v1 v2 none = .ok (v1, v2) ∧
    Must3 v1 v2 v3 none = .ok (v1, v2, v3) ∧
    Must4 v1 v2 v3 v4 none = .ok (v1, v2, v3, v4) ∧
    Must (some c) = .error (.checkErr c) ∧
    Must1 v1 (some c) = .error (.checkErr c) ∧
    Must2 v1 v2 (some c) = .error (.checkErr c) ∧
    Must3 v1 v2 v3 (some c) = .error (.checkErr c) ∧
    Must4 v1 v2 v3 v4 (some c) = .error (.checkErr c) :=
  ⟨rfl, rfl, rfl, rfl, rfl, rfl, rfl, rfl, rfl, rfl⟩

/-- C3: a deferred Handle with an output slot and no transforms, around a
body that raises via `Must1 v (some c)`, intercepts the unwind, writes
exactly the cause `c` (not a wrapper of it) into the slot, and the
enclosing function returns normally. -/
theorem handle_slot_holds_exact_cause (c : GoErr) (v : Int) :
    runBoundary mathMinInt [] []
        (do let _ ← Must1 v (some c); pure none) =
      .ok (some c) := rfl

/-- C4: with transform chain `[t1, t2]` on a boundary with a slot, the
resulting error written is `t2 (t1 c)` when neither transform returns
nil; and when `t1 c` is nil the boundary records no error and never
invokes the second transform (the result is the same for every second
transform). -/
theorem transform_chain_composes_and_suppresses (c : GoErr)
    (t1 t2 : Transform) :
    (∀ d x, t1 c = some d → t2 d = some x →
      handle (some (.checkErr c)) mathMinInt true [t1, t2] [] =
        .normal (some x)) ∧
    (t1 c = none → ∀ t2' : Transform,
      handle (some (.checkErr c)) mathMinInt true [t1, t2'] [] =
        .normal none) := by
  constructor
  · intro d x h1 h2
    simp [handle, transformChain, h1, h2]
  · intro h1 t2'
    simp [handle, transformChain, h1]

/-- Witness for C4 with cause "a", a chain rewriting to "b" then "c", and
a suppressing chain whose second transform is never consulted. -/
theorem transform_chain_composes_and_suppresses_witness :
    handle (some (.checkErr (.base "a"))) mathMinInt true
        [fun _ => some (.base "b"), fun _ => some (.base "c")] [] =
      .normal (some (.base "c")) ∧
    handle (some (.checkErr (.base "a"))) mathMinInt true
        [fun _ => none, fun _ => some (.base "z")] [] =
      .normal none :=
  ⟨(transform_chain_composes_and_suppresses (.base "a")
      (fun _ => some (.base "b")) (fun _ => some (.base "c"))).1
      (.base "b") (.base "c") rfl rfl,
   (transform_chain_composes_and_suppresses (.base "a")
      (fun _ => none) (fun _ => some (.base "c"))).2 rfl
      (fun _ => some (.base "z"))⟩

/-- C5: `Fail none` raises the ErrNilError sentinel as a plain (foreign,
non-check.Error) payload, while `Fail (some c)` raises a Failure Payload
wrapping exactly `c`; the two payloads differ for every `c`, and the
sentinel passes through every recovery boundary untouched — no transform
chain can absorb it. -/
theorem fail_nil_sentinel_distinguished (c : GoErr) (ts : List Transform)
    (skip : Int) (slot : Bool) (stack : List Frame) :
    Fail none = .error (.foreign (.verr ErrNilError)) ∧
    Fail (some c) = .error (.checkErr c) ∧
    Payload.foreign (.verr ErrNilError) ≠ Payload.checkErr c ∧
    handle (some (.foreign (.verr ErrNilError))) skip slot ts stack =
      .repanic (.foreign (.verr ErrNilError)) :=
  ⟨rfl, rfl, fun h => Payload.noConfusion h, rfl⟩

/-- C6: for every arity 0..4, CatchN of a work function that returns
without raising yields the returned values alongside a nil error, and
CatchN of a work function that raises via MustN with cause `c` yields the
arity's zero/default success values alongside the error `c`. -/
theorem catch_family_correct (α β γ δ : Type) [Inhabited α] [Inhabited β]
    [Inhabited γ] [Inhabited δ] (v1 : α) (v2 : β) (v3 : γ) (v4 : δ)
    (c : GoErr) :
    Catch (.ok ()) [] = .ok none ∧
    Catch1 (.ok v1) [] = .ok (v1, none) ∧
    Catch2 (.ok (v1, v2)) [] = .ok (v1, v2, none) ∧
    Catch3 (.ok (v1, v2, v3)) [] = .ok (v1, v2, v3, none) ∧
    Catch4 (.ok (v1, v2, v3, v4)) [] = .ok (v1, v2, v3, v4, none) ∧
    Catch (Must (some c)) [] = .ok (some c) ∧
    Catch1 (Must1 v1 (some c)) [] = .ok ((default : α), some c) ∧
    Catch2 (Must2 v1 v2 (some c)) [] =
      .ok ((default : α), (default : β), some c) ∧
    Catch3 (Must3 v1 v2 v3 (some c)) [] =
      .ok ((default : α), (default : β), (default : γ), some c) ∧
    Catch4 (Must4 v1 v2 v3 v4 (some c)) [] =
      .ok ((default : α), (default : β), (default : γ), (default : δ),
        some c) :=
  ⟨rfl, rfl, rfl, rfl, rfl, rfl, rfl, rfl, rfl, rfl⟩

/-- Concrete instance of the Catch2 behaviour: `Catch2` with work returning `(42, 56)` yields
`(42, 56, nil)`, and with work raising `Must2 42 56 c` yields
`(0, 0, c)`. -/
theorem catch2_concrete (c : GoErr) :
    Catch2 (.ok ((42 : Int), (56 : Int))) [] = .ok (42, 56, none) ∧
    Catch2 (Must2 (42 : Int) (56 : Int) (some c)) [] =
      .ok (0, 0, some c) :=
  ⟨rfl, rfl⟩

/-- C7: when a Failure Payload reaches a boundary with no output slot and
the transform chain does not suppress the cause, the boundary re-raises a
freshly built Failure Payload wrapping the final transformed cause, so
propagation continues (no silent drop, no stack decoration). -/
theorem no_slot_repanics_failure (c c' : GoErr) (ts : List Transform)
    (skip : Int) (stack : List Frame)
    (h : transformChain ts c = some c') :
    handle (some (.checkErr c)) skip false ts stack =
      .repanic (.checkErr c') := by
  simp [handle, h]

/-- Witness for C7 at cause "a" with an empty transform chain. -/
theorem no_slot_repanics_failure_witness :
    handle (some (.checkErr (.base "a"))) 0 false [] [] =
      .repanic (.checkErr (.base "a")) :=
  no_slot_repanics_failure (.base "a") (.base "a") [] 0 [] rfl

/-- C8: `Pass` re-raises its argument exactly when it is a Failure
Payload (a check.Error), and returns every other payload — nil included —
unchanged. -/
theorem pass_selective (v : GoVal) (e : GoErr) :
    Pass none = .ok none ∧
    Pass (some (.foreign v)) = .ok (some (.foreign v)) ∧
    Pass (some (.checkErr e)) = .error (.checkErr e) :=
  ⟨rfl, rfl, rfl⟩

/-- Dropping the four boundary-internal frames of the interception stack
leaves the caller frames, minus the caller-requested skip. -/
theorem drop_four_add (skip : Nat) (a b c d : Frame) (l : List Frame) :
    List.drop (4 + skip) (a :: b :: c :: d :: l) = List.drop skip l := by
  rw [← List.drop_drop]
  rfl

/-- C9 counterexample: the claim as stated fails when a non-suppressing
transform rewrites the cause. With original cause "a" and the single
transform constantly returning "b", the deferred Wrap deposits a
stack-decorated error whose unwrapped cause is "b", not the original
cause "a". -/
theorem wrap_unwrap_not_original_cause_cex :
    Wrap (some (.checkErr (.base "a"))) 0 true
        [fun _ => some (.base "b")]
        (interceptionStack "raiser" ["caller"]) =
      .normal (some (.stackWrapped (.base "b") ["caller"])) ∧
    unwrapErr (GoErr.stackWrapped (.base "b") ["caller"]) ≠
      some (.base "a") := by
  exact ⟨rfl, by decide⟩

/-- C9 (amended): for every cause `c` intercepted by a deferred Wrap with
an output slot, a non-negative skip and transforms that do not suppress,
mapping `c` to final cause `c'`: the deposited error is the go-errors
decorator around `c'` — so it unwraps to the final (possibly transformed)
cause, which is the original cause exactly when the chain maps `c` to
itself — and its attached stack trace is the callers of the raising
function minus `skip` frames, so at skip = 0 the first retained frame is
the raiser's immediate caller. -/
theorem wrap_unwraps_final_cause_and_stack (c c' : GoErr)
    (ts : List Transform) (skip : Nat) (raiser caller : Frame)
    (rest : List Frame) (h : transformChain ts c = some c') :
    Wrap (some (.checkErr c)) (skip : Int) true ts
        (interceptionStack raiser (caller :: rest)) =
      .normal (some (.stackWrapped c' ((caller :: rest).drop skip))) ∧
    unwrapErr (.stackWrapped c' ((caller :: rest).drop skip)) =
      some c' ∧
    (skip = 0 →
      stackTrace (.stackWrapped c' ((caller :: rest).drop skip)) =
        some (caller :: rest)) := by
  have hskip : ((skip : Nat) : Int) ≠ mathMinInt := by
    simp only [mathMinInt]
    omega
  have htn : ((4 : Int) + (skip : Nat)).toNat = 4 + skip := by omega
  refine ⟨?_, rfl, ?_⟩
  · simp only [Wrap, handle, h, errorsWrap, interceptionStack, htn,
      if_pos, hskip, ne_eq, not_false_iff, if_true]
    rw [drop_four_add]
  · intro h0
    subst h0
    rfl

/-- Witness for C9 (amended) at cause "a", empty transform chain and
skip 0. -/
theorem wrap_unwraps_final_cause_and_stack_witness :
    Wrap (some (.checkErr (.base "a"))) (((0 : Nat) : Int)) true []
        (interceptionStack "raiser" ("caller" :: ["main"])) =
      .normal (some (.stackWrapped (.base "a")
        (("caller" :: ["main"]).drop 0))) ∧
    unwrapErr (.stackWrapped (.base "a") (("caller" :: ["main"]).drop 0)) =
      some (.base "a") ∧
    (0 = 0 →
      stackTrace (.stackWrapped (.base "a")
          (("caller" :: ["main"]).drop 0)) =
        some ("caller" :: ["main"])) :=
  wrap_unwraps_final_cause_and_stack (.base "a") (.base "a") [] 0
    "raiser" "caller" ["main"] rfl

/-- C10: `Handle e ts` behaves exactly like `Wrap e math.MinInt ts` on
every recover result, slot, transform chain and interception stack: both
delegate to `handle`, and skip = math.MinInt disables the stack-trace
wrapping, so the stack argument is irrelevant. -/
theorem handle_eq_wrap_minint (r : Option Payload) (slot : Bool)
    (ts : List Transform) (stack : List Frame) :
    Handle r slot ts = Wrap r mathMinInt slot ts stack := by
  unfold Handle Wrap handle
  cases r with
  | none => rfl
  | some p =>
    cases p with
    | checkErr e =>
      cases transformChain ts e with
      | none => rfl
      | some err => simp
    | foreign v => rfl

end Check
